import Mathlib

/-!
Shallow embedding of the frame-synchronization and swapchain-lifecycle core
of the RenderProj Vulkan renderer (src/main.rs, src/engine/swapchain.rs,
src/engine/pipeline.rs, src/engine/buffer.rs, src/engine/renderer.rs).

GPU objects are modelled as records carrying an identity (`id : Nat`)
allocated from a monotone counter, so that "rebuilt" (fresh object) and
"carried over" (same object) are distinguishable.  External driver calls
(`Swapchain::new`, `Swapchain::recreate`) are modelled deterministically:
the driver hands back exactly the requested images, each with the extent
of the create info.  Per-frame environment inputs (acquire outcome, flush
outcome, window size, surface capabilities, elapsed time) are packaged in
`FrameEnv`.
-/

/-- Pixel extent: width and height, as in vulkano `[u32; 2]`. -/
abbrev Extent := Nat × Nat

/-- Color formats; the source only distinguishes `B8G8R8A8_SRGB` from the rest
(src/engine/swapchain.rs line 33). -/
inductive Format where
  | B8G8R8A8_SRGB
  | other (code : Nat)
deriving DecidableEq, Repr

/-- Color spaces; the source only distinguishes `SrgbNonLinear`
(src/engine/swapchain.rs line 33). -/
inductive ColorSpace where
  | SrgbNonLinear
  | otherCS (code : Nat)
deriving DecidableEq, Repr

/-- Surface capabilities as consumed by the source: `min_image_count`,
and `current_extent` (`None` when the surface does not report one).
`max_image_count` (`None` = unbounded) is reported by Vulkan but, notably,
never read by src/engine/swapchain.rs. -/
structure SurfaceCapabilities where
  min_image_count : Nat
  max_image_count : Option Nat
  current_extent : Option Extent
deriving DecidableEq, Repr

/-- The fields of vulkano `SwapchainCreateInfo` that the source sets
(src/engine/swapchain.rs lines 45-53).  `image_usage` and `composite_alpha`
are opaque tags; the source always passes `COLOR_ATTACHMENT` and `Opaque`. -/
structure SwapchainCreateInfo where
  min_image_count : Nat
  image_format : Format
  image_color_space : ColorSpace
  image_extent : Extent
  image_usage : Nat
  composite_alpha : Nat
deriving DecidableEq, Repr

/-- Tag for `ImageUsage::COLOR_ATTACHMENT`. -/
def usageColorAttachment : Nat := 1

/-- Tag for `CompositeAlpha::Opaque`. -/
def alphaOpaque : Nat := 1

/-- A presentable swapchain image; its extent is the extent of the chain that
created it. -/
structure SwapchainImage where
  id : Nat
  extent : Extent
deriving DecidableEq, Repr

/-- A swapchain handle: identity plus the create info it was built from
(vulkano keeps the create info; `Swapchain::create_info()` returns it). -/
structure Swapchain where
  id : Nat
  info : SwapchainCreateInfo
deriving DecidableEq, Repr

/-- `SwapchainBundle` from src/engine/swapchain.rs lines 11-14. -/
structure SwapchainBundle where
  swapchain : Swapchain
  images : List SwapchainImage
deriving DecidableEq, Repr

/-- Model of the driver call `Swapchain::new` / `Swapchain::recreate`: the
driver returns a fresh chain with the requested create info and exactly
`info.min_image_count` images, each sized to `info.image_extent`.  Fresh ids
are drawn starting at `startId`; the next unused id is returned alongside. -/
def swapchainDriverCreate (info : SwapchainCreateInfo) (startId : Nat) :
    SwapchainBundle × Nat :=
  (⟨⟨startId, info⟩,
    (List.range info.min_image_count).map
      (fun i => ⟨startId + 1 + i, info.image_extent⟩)⟩,
   startId + 1 + info.min_image_count)

/-- Format choice of `create_swapchain` (src/engine/swapchain.rs lines 30-36):
first `(B8G8R8A8_SRGB, SrgbNonLinear)` pair, else the first reported format
(`surface_formats[0]`, which panics on an empty list — modelled as `none`). -/
def chooseSurfaceFormat (surface_formats : List (Format × ColorSpace)) :
    Option (Format × ColorSpace) :=
  match surface_formats.find?
      (fun fc => fc.1 == Format.B8G8R8A8_SRGB && fc.2 == ColorSpace.SrgbNonLinear) with
  | some fc => some fc
  | none => surface_formats.head?

/-- The `SwapchainCreateInfo` that `create_swapchain` requests
(src/engine/swapchain.rs lines 38-53): image count `min_image_count.max(2)`,
extent `current_extent.unwrap_or([800, 600])`, chosen format/color space,
color-attachment usage, opaque composite alpha.  `none` when the surface
reports no formats at all. -/
def create_swapchain_info (caps : SurfaceCapabilities)
    (surface_formats : List (Format × ColorSpace)) : Option SwapchainCreateInfo :=
  (chooseSurfaceFormat surface_formats).map (fun format =>
    { min_image_count := max caps.min_image_count 2
      image_format := format.1
      image_color_space := format.2
      image_extent := caps.current_extent.getD (800, 600)
      image_usage := usageColorAttachment
      composite_alpha := alphaOpaque })

/-- `create_swapchain` (src/engine/swapchain.rs lines 17-63): build the create
info from the capabilities and formats, then call the driver. -/
def create_swapchain (caps : SurfaceCapabilities)
    (surface_formats : List (Format × ColorSpace)) (startId : Nat) :
    Option (SwapchainBundle × Nat) :=
  (create_swapchain_info caps surface_formats).map
    (fun info => swapchainDriverCreate info startId)

/-- The image count `create_swapchain` requests for given capabilities. -/
def requestedImageCount (caps : SurfaceCapabilities) : Nat :=
  max caps.min_image_count 2

/-- `recreate_swapchain` (src/engine/swapchain.rs lines 66-89): resolve the
extent from `caps.current_extent`, falling back to the OLD chain's extent
(`old_swapchain.image_extent()`), and reuse every other field of
`old_swapchain.create_info()`. -/
def recreate_swapchain (caps : SurfaceCapabilities) (old_swapchain : Swapchain)
    (startId : Nat) : SwapchainBundle × Nat :=
  let dimensions := caps.current_extent.getD old_swapchain.info.image_extent
  swapchainDriverCreate { old_swapchain.info with image_extent := dimensions } startId

/-- Alias for the module-level `recreate_swapchain`, usable inside the
`Renderer` namespace where the unqualified name would resolve to
`Renderer::recreate_swapchain`. -/
def swapchainModuleRecreate : SurfaceCapabilities → Swapchain → Nat →
    SwapchainBundle × Nat :=
  recreate_swapchain

/-- Modelled from the spec (section 4.1), for comparison with the source:
the spec says the recreate extent falls back to "the caller-supplied size if
the surface does not report one".  The source function takes no caller size;
this variant adds one and uses it as the fallback. -/
def recreate_extent_as_specified (caps : SurfaceCapabilities)
    (callerSize : Extent) : Extent :=
  caps.current_extent.getD callerSize

/-- A render pass handle: identity plus the color-attachment format it was
built for (`create_render_pass`, src/engine/pipeline.rs lines 19-38). -/
structure RenderPass where
  id : Nat
  format : Format
deriving DecidableEq, Repr

/-- A framebuffer: one color attachment that is the default view of one
swapchain image, bound to a render pass (`create_framebuffers`,
src/engine/pipeline.rs lines 41-61).  vulkano derives the framebuffer extent
from its sole attachment, i.e. from the image. -/
structure Framebuffer where
  render_pass : Nat
  imageId : Nat
  extent : Extent
deriving DecidableEq, Repr

/-- `create_framebuffers` (src/engine/pipeline.rs lines 41-61): map over the
swapchain images, wrapping each in a default image view and a framebuffer on
the given render pass. -/
def create_framebuffers (images : List SwapchainImage)
    (render_pass : RenderPass) : List Framebuffer :=
  images.map (fun image => ⟨render_pass.id, image.id, image.extent⟩)

/-- A graphics pipeline: identity, the baked (non-dynamic) viewport
dimensions, and the render pass it targets (`create_graphics_pipeline`,
src/engine/pipeline.rs lines 64-100). -/
structure GraphicsPipeline where
  id : Nat
  viewport : Extent
  render_pass : Nat
deriving DecidableEq, Repr

/-- `create_graphics_pipeline` (src/engine/pipeline.rs lines 64-100),
identity-tracked: a fresh pipeline with the given viewport on the given
render pass. -/
def create_graphics_pipeline (render_pass : RenderPass) (viewport : Extent)
    (freshId : Nat) : GraphicsPipeline :=
  ⟨freshId, viewport, render_pass.id⟩

/-- One 4x4 matrix value as the source constructs them, kept symbolic:
nalgebra `Matrix4::identity()`, `Matrix4::new_rotation(axis_angle)` (the
axis-angle vector recorded componentwise), `Matrix4::look_at_rh(eye, target,
up)` and `Perspective3::new(aspect, fovy, znear, zfar)` (fovy is always
`FRAC_PI_4` in the source and is not recorded). -/
inductive Mat4 where
  | identity
  | new_rotation (x y z : ℚ)
  | look_at_rh (eye target up : ℚ × ℚ × ℚ)
  | perspective (aspect znear zfar : ℚ)
deriving DecidableEq, Repr

/-- `UniformBufferObject` (src/engine/buffer.rs lines 24-28). -/
structure UniformBufferObject where
  model : Mat4
  view : Mat4
  proj : Mat4
deriving DecidableEq, Repr

/-- Contents written by `create_uniform_buffer` (src/engine/buffer.rs lines
67-83): all three matrices are identity. -/
def create_uniform_buffer_contents : UniformBufferObject :=
  ⟨Mat4.identity, Mat4.identity, Mat4.identity⟩

/-- The in-flight completion token stored in `previous_frame_end`:
`sync::now(device)` (immediately satisfied) or the fence future produced by
submission number `n` (`then_signal_fence_and_flush`). -/
inductive Token where
  | now
  | submit (n : Nat)
deriving DecidableEq, Repr

/-- Outcome of `acquire_next_image` (src/engine/renderer.rs lines 154-163):
success carries the image index and the suboptimal flag; `outOfDate` is
`AcquireError::OutOfDate`; `otherError` is any other acquire error. -/
inductive AcquireOutcome where
  | success (imageIndex : Nat) (suboptimal : Bool)
  | outOfDate
  | otherError
deriving DecidableEq, Repr

/-- Outcome of `then_signal_fence_and_flush` (src/engine/renderer.rs lines
206-218): success, `FlushError::OutOfDate`, or any other flush error. -/
inductive FlushOutcome where
  | success
  | outOfDate
  | otherError
deriving DecidableEq, Repr

/-- The error a frame can return: the source wraps unexpected acquire and
submission failures in `anyhow` errors (the spec's `DeviceError`). -/
inductive RenderError where
  | deviceError
deriving DecidableEq, Repr

/-- Everything the environment feeds one `render_frame` call: the elapsed
wall-clock sample, the window's current inner size, the surface capabilities
(consulted on rebuild), the acquire outcome, whether `then_execute` succeeds,
and the flush outcome. -/
structure FrameEnv where
  elapsed : ℚ
  windowSize : Extent
  caps : SurfaceCapabilities
  acquire : AcquireOutcome
  execOk : Bool
  flush : FlushOutcome
deriving DecidableEq, Repr

/-- The mutable fields of `struct Renderer` (src/engine/renderer.rs lines
35-53) that the frame machine touches, plus the id counter and a submission
counter used to name completion tokens. -/
structure Renderer where
  swapchain : Swapchain
  swapchain_images : List SwapchainImage
  render_pass : RenderPass
  pipeline : GraphicsPipeline
  framebuffers : List Framebuffer
  uniform_buffer : UniformBufferObject
  previous_frame_end : Token
  frameCounter : Nat
  nextId : Nat
deriving DecidableEq, Repr

/-- What one `Renderer::recreate_swapchain` call did: whether it waited for
device idle and whether it actually rebuilt the chain. -/
structure RebuildTrace where
  waitedIdle : Bool
  rebuilt : Bool
deriving DecidableEq, Repr

/-- Observable record of one `render_frame` call: the token consumed at the
start, the token a submit produced (if any), whether the frame was recorded,
submitted and presented, and whether the rebuild routine rebuilt the chain
during this call. -/
structure FrameTrace where
  consumed : Token
  produced : Option Token
  recorded : Bool
  submitted : Bool
  presented : Bool
  rebuiltNow : Bool
deriving DecidableEq, Repr

/-- The `UniformBufferObject` value `Renderer::update_uniform_buffer` computes
for a frame (src/engine/renderer.rs lines 224-246): a model rotation with
axis-angle vector `(0, elapsed * 0.3, 0)`, the fixed camera at `(2,2,2)`
looking at the origin with up `(0,1,0)`, and a perspective with the window's
aspect ratio, near `0.1`, far `100`. -/
def Renderer.computedFrameUBO (elapsed : ℚ) (windowSize : Extent) :
    UniformBufferObject :=
  { model := Mat4.new_rotation 0 (elapsed * (3 / 10)) 0
    view := Mat4.look_at_rh (2, 2, 2) (0, 0, 0) (0, 1, 0)
    proj := Mat4.perspective ((windowSize.1 : ℚ) / (windowSize.2 : ℚ))
      (1 / 10) 100 }

/-- `Renderer::update_uniform_buffer` (src/engine/renderer.rs lines 223-255):
the source computes `Renderer.computedFrameUBO` and allocates a fresh buffer
via `create_uniform_buffer` (whose contents are identity matrices), but the
copy into `self.uniform_buffer` is an unimplemented TODO (lines 251-252), so
the renderer state is returned unchanged; both computed values are dropped. -/
def Renderer.update_uniform_buffer (_env : FrameEnv) (s : Renderer) : Renderer :=
  s

/-- `Renderer::recreate_swapchain` (src/engine/renderer.rs lines 257-309):
return unchanged if the window has a zero dimension; otherwise wait for
device idle, recreate the swapchain from the old one (src/engine/swapchain.rs
`recreate_swapchain`), rebuild the framebuffers on the EXISTING render pass,
and rebuild the pipeline with a viewport of the window's inner size on the
EXISTING render pass.  The render pass itself is not recreated. -/
def Renderer.recreate_swapchain (env : FrameEnv) (s : Renderer) :
    Renderer × RebuildTrace :=
  let window_dimensions := env.windowSize
  if window_dimensions.1 = 0 ∨ window_dimensions.2 = 0 then
    (s, ⟨false, false⟩)
  else
    let res := swapchainModuleRecreate env.caps s.swapchain s.nextId
    let bundle := res.1
    let nid := res.2
    let framebuffers := create_framebuffers bundle.images s.render_pass
    let pipeline := create_graphics_pipeline s.render_pass window_dimensions nid
    ({ s with
        swapchain := bundle.swapchain
        swapchain_images := bundle.images
        framebuffers := framebuffers
        pipeline := pipeline
        nextId := nid + 1 },
     ⟨true, true⟩)

/-- `Renderer::render_frame` (src/engine/renderer.rs lines 145-221).
Take the previous completion token; run the (no-op) uniform update; acquire.
On `OutOfDate` acquire: rebuild, restore the consumed token, return Ok
without drawing.  On a suboptimal acquire: same — rebuild now and skip the
frame.  On any other acquire error: return `DeviceError`.  Otherwise record
and submit; `then_execute` failure propagates as an error; on flush success
store the submission's fence as the new token; on flush `OutOfDate` rebuild
and store an immediately-satisfied token; on any other flush error log it,
store an immediately-satisfied token, and still return Ok. -/
def Renderer.render_frame (env : FrameEnv) (s : Renderer) :
    Except RenderError (Renderer × FrameTrace) :=
  let previous_frame_end := s.previous_frame_end
  let s := Renderer.update_uniform_buffer env s
  match env.acquire with
  | AcquireOutcome.outOfDate =>
    let r := Renderer.recreate_swapchain env s
    Except.ok ({ r.1 with previous_frame_end := previous_frame_end },
      ⟨previous_frame_end, none, false, false, false, r.2.rebuilt⟩)
  | AcquireOutcome.otherError => Except.error RenderError.deviceError
  | AcquireOutcome.success _imageIndex suboptimal =>
    if suboptimal then
      let r := Renderer.recreate_swapchain env s
      Except.ok ({ r.1 with previous_frame_end := previous_frame_end },
        ⟨previous_frame_end, none, false, false, false, r.2.rebuilt⟩)
    else
      if env.execOk then
        let token := Token.submit s.frameCounter
        match env.flush with
        | FlushOutcome.success =>
          Except.ok ({ s with
              previous_frame_end := token
              frameCounter := s.frameCounter + 1 },
            ⟨previous_frame_end, some token, true, true, true, false⟩)
        | FlushOutcome.outOfDate =>
          let r := Renderer.recreate_swapchain env s
          Except.ok ({ r.1 with
              previous_frame_end := Token.now
              frameCounter := s.frameCounter + 1 },
            ⟨previous_frame_end, some token, true, true, false, r.2.rebuilt⟩)
        | FlushOutcome.otherError =>
          Except.ok ({ s with
              previous_frame_end := Token.now
              frameCounter := s.frameCounter + 1 },
            ⟨previous_frame_end, some token, true, true, false, false⟩)
      else
        Except.error RenderError.deviceError

/-- `Renderer::new` (src/engine/renderer.rs lines 56-143), restricted to the
state the frame machine uses: create the swapchain, a render pass for its
format, a pipeline with the window-sized viewport, one framebuffer per image,
an identity-filled uniform buffer, and a `sync::now` completion token.
`none` when swapchain creation fails (no surface formats). -/
def Renderer.new (caps : SurfaceCapabilities)
    (surface_formats : List (Format × ColorSpace)) (windowSize : Extent) :
    Option Renderer :=
  match create_swapchain caps surface_formats 0 with
  | none => none
  | some res =>
    let bundle := res.1
    let nid := res.2
    let render_pass : RenderPass := ⟨nid, bundle.swapchain.info.image_format⟩
    let pipeline := create_graphics_pipeline render_pass windowSize (nid + 1)
    let framebuffers := create_framebuffers bundle.images render_pass
    some
      { swapchain := bundle.swapchain
        swapchain_images := bundle.images
        render_pass := render_pass
        pipeline := pipeline
        framebuffers := framebuffers
        uniform_buffer := create_uniform_buffer_contents
        previous_frame_end := Token.now
        frameCounter := 0
        nextId := nid + 2 }

/-- The `main` event loop (src/main.rs lines 42-61), restricted to the
`MainEventsCleared` arm: drive `render_frame` over a list of per-frame
environments; exit on the first frame that returns an error.  Returns the
number of frames attempted and whether the loop exited with an error. -/
def runLoop (envs : List FrameEnv) (s : Renderer) : Nat × Bool :=
  match envs with
  | [] => (0, false)
  | env :: rest =>
    match Renderer.render_frame env s with
    | Except.ok res =>
      let r := runLoop rest res.1
      (r.1 + 1, r.2)
    | Except.error _ => (1, true)

/-- Equality on `Except` results is decidable when it is on both sides. -/
instance {ε α : Type} [DecidableEq ε] [DecidableEq α] :
    DecidableEq (Except ε α) := fun a b =>
  match a, b with
  | Except.ok x, Except.ok y =>
    if h : x = y then isTrue (by rw [h]) else isFalse (by simp [h])
  | Except.error x, Except.error y =>
    if h : x = y then isTrue (by rw [h]) else isFalse (by simp [h])
  | Except.ok _, Except.error _ => isFalse (by simp)
  | Except.error _, Except.ok _ => isFalse (by simp)

/-! Concrete fixtures used to exercise the model at explicit inputs. -/

/-- A surface reporting three-image bounds and a concrete extent. -/
def sampleCaps : SurfaceCapabilities := ⟨2, some 3, some (800, 600)⟩

/-- One supported format pair, matching the source's preferred choice. -/
def sampleFormats : List (Format × ColorSpace) :=
  [(Format.B8G8R8A8_SRGB, ColorSpace.SrgbNonLinear)]

/-- Fallback renderer value (only used to strip the `Option` from
`Renderer.new` on inputs where creation is known to succeed). -/
def dummyRenderer : Renderer :=
  { swapchain := ⟨0, ⟨2, Format.B8G8R8A8_SRGB, ColorSpace.SrgbNonLinear,
      (800, 600), usageColorAttachment, alphaOpaque⟩⟩
    swapchain_images := []
    render_pass := ⟨0, Format.B8G8R8A8_SRGB⟩
    pipeline := ⟨0, (800, 600), 0⟩
    framebuffers := []
    uniform_buffer := create_uniform_buffer_contents
    previous_frame_end := Token.now
    frameCounter := 0
    nextId := 1 }

/-- The renderer state produced by `Renderer.new` on the sample surface. -/
def sampleRenderer : Renderer :=
  (Renderer.new sampleCaps sampleFormats (800, 600)).getD dummyRenderer

/-- A steady-state frame: clean acquire, successful execution and flush. -/
def envOk : FrameEnv :=
  ⟨1, (800, 600), sampleCaps, AcquireOutcome.success 0 false, true,
    FlushOutcome.success⟩

/-- A frame whose acquire succeeds but reports the image suboptimal. -/
def envSubopt : FrameEnv :=
  ⟨1, (800, 600), sampleCaps, AcquireOutcome.success 0 true, true,
    FlushOutcome.success⟩

/-- A frame whose acquire reports the surface out-of-date. -/
def envAcquireOOD : FrameEnv :=
  ⟨1, (800, 600), sampleCaps, AcquireOutcome.outOfDate, true,
    FlushOutcome.success⟩

/-- A frame whose present/flush reports out-of-date. -/
def envFlushOOD : FrameEnv :=
  ⟨1, (800, 600), sampleCaps, AcquireOutcome.success 0 false, true,
    FlushOutcome.outOfDate⟩

/-- A frame whose present/flush fails with an error other than out-of-date. -/
def envFlushErr : FrameEnv :=
  ⟨1, (800, 600), sampleCaps, AcquireOutcome.success 0 false, true,
    FlushOutcome.otherError⟩

/-- A rebuild request arriving while the window is minimized (zero width). -/
def envZeroWindow : FrameEnv :=
  ⟨1, (0, 600), sampleCaps, AcquireOutcome.outOfDate, true,
    FlushOutcome.success⟩

/-! General lemmas about the frame machine and the rebuild path. -/

/-- Every `render_frame` call that returns Ok consumed exactly the token
stored in `previous_frame_end` at its start (the source takes the token at
line 147 before anything else). -/
theorem render_frame_consumed (env : FrameEnv) (s : Renderer) (s' : Renderer)
    (tr : FrameTrace) (h : Renderer.render_frame env s = Except.ok (s', tr)) :
    tr.consumed = s.previous_frame_end := by
  rcases env with ⟨el, ws, caps, acq, ex, fl⟩
  rcases acq with ⟨idx, sub⟩ | _ | _
  all_goals try cases sub
  all_goals cases ex
  all_goals cases fl
  all_goals simp only [Renderer.render_frame, Renderer.update_uniform_buffer] at h
  all_goals
    first
    | exact Except.noConfusion h
    | (injection h with hp; injection hp with hA hB; rw [← hB])

/-- `render_frame` only returns an error when acquire fails with a
non-out-of-date error or command-buffer execution fails: for any other
environment it returns Ok. -/
theorem render_frame_ok_of_benign (env : FrameEnv) (s : Renderer)
    (hacq : env.acquire ≠ AcquireOutcome.otherError) (hex : env.execOk = true) :
    (Renderer.render_frame env s).isOk = true := by
  rcases env with ⟨el, ws, caps, acq, ex, fl⟩
  simp only at hacq hex
  subst hex
  rcases acq with ⟨idx, sub⟩ | _ | _
  all_goals try cases sub
  all_goals cases fl
  all_goals simp only [Renderer.render_frame, Renderer.update_uniform_buffer,
    Except.isOk]
  all_goals first | rfl | exact absurd rfl hacq

/-- The run loop never exits with an error while every frame's acquire avoids
the fatal case and execution succeeds — in particular flush failures never
stop it. -/
theorem runLoop_no_error_exit (envs : List FrameEnv) (s : Renderer)
    (h : ∀ e ∈ envs, e.acquire ≠ AcquireOutcome.otherError ∧ e.execOk = true) :
    (runLoop envs s).2 = false := by
  induction envs generalizing s with
  | nil => rfl
  | cons e rest ih =>
    have he := h e (by simp)
    have hok := render_frame_ok_of_benign e s he.1 he.2
    rcases hrf : Renderer.render_frame e s with err | p
    · rw [hrf] at hok
      simp [Except.isOk, Except.toBool] at hok
    · simp only [runLoop, hrf]
      exact ih p.1 (fun x hx => h x (by simp [hx]))

/-- Image `i` of a driver-created bundle: fresh id `startId + 1 + i`, extent
equal to the create info's extent. -/
theorem driver_images_getElem? (info : SwapchainCreateInfo) (startId i : Nat)
    (h : i < info.min_image_count) :
    (swapchainDriverCreate info startId).1.images[i]? =
      some ⟨startId + 1 + i, info.image_extent⟩ := by
  simp [swapchainDriverCreate, List.getElem?_map, List.getElem?_range h]

/-- A driver-created bundle holds exactly the requested number of images. -/
theorem driver_images_length (info : SwapchainCreateInfo) (startId : Nat) :
    (swapchainDriverCreate info startId).1.images.length = info.min_image_count := by
  simp [swapchainDriverCreate]

/-- All images of a driver-created bundle have ids strictly above `startId`. -/
theorem driver_images_id_lb (info : SwapchainCreateInfo) (startId : Nat) :
    ∀ img ∈ (swapchainDriverCreate info startId).1.images, startId < img.id := by
  intro img hmem
  simp only [swapchainDriverCreate, List.mem_map, List.mem_range] at hmem
  obtain ⟨i, hi, rfl⟩ := hmem
  show startId < startId + 1 + i
  omega

/-- Framebuffer `i` wraps image `i`: `create_framebuffers` is a map. -/
theorem create_framebuffers_getElem? (images : List SwapchainImage)
    (rp : RenderPass) (i : Nat) :
    (create_framebuffers images rp)[i]? =
      (images[i]?).map (fun image => ⟨rp.id, image.id, image.extent⟩) := by
  simp [create_framebuffers, List.getElem?_map]

/-- `Renderer::recreate_swapchain` actually rebuilds exactly when both window
dimensions are nonzero. -/
theorem recreate_rebuilt_iff (env : FrameEnv) (s : Renderer) :
    (Renderer.recreate_swapchain env s).2.rebuilt = true ↔
      ¬(env.windowSize.1 = 0 ∨ env.windowSize.2 = 0) := by
  by_cases h : env.windowSize.1 = 0 ∨ env.windowSize.2 = 0 <;>
    simp [Renderer.recreate_swapchain, h]

/-- The framebuffer/swapchain coupling invariant of spec section 8: one
framebuffer per swapchain image, framebuffer `i` wrapping a view of image
`i` on the current render pass, with the swapchain's current extent. -/
def FramebufferInvariant (s : Renderer) : Prop :=
  s.framebuffers.length = s.swapchain_images.length ∧
  ∀ i, i < s.framebuffers.length →
    ((s.framebuffers[i]?).map Framebuffer.imageId =
        (s.swapchain_images[i]?).map SwapchainImage.id ∧
      (s.framebuffers[i]?).map Framebuffer.extent =
        some s.swapchain.info.image_extent ∧
      (s.framebuffers[i]?).map Framebuffer.render_pass = some s.render_pass.id)

instance (s : Renderer) : Decidable (FramebufferInvariant s) := by
  unfold FramebufferInvariant
  infer_instance

/-- After a non-degenerate rebuild the framebuffer invariant holds. -/
theorem invariant_after_rebuild (env : FrameEnv) (s : Renderer)
    (hw : ¬(env.windowSize.1 = 0 ∨ env.windowSize.2 = 0)) :
    FramebufferInvariant (Renderer.recreate_swapchain env s).1 := by
  simp only [Renderer.recreate_swapchain, if_neg hw, swapchainModuleRecreate,
    recreate_swapchain]
  constructor
  · simp [create_framebuffers]
  · intro i hi
    simp only [create_framebuffers, List.length_map, driver_images_length] at hi
    refine ⟨?_, ?_, ?_⟩ <;>
      simp [create_framebuffers_getElem?, driver_images_getElem? _ _ i hi,
        swapchainDriverCreate, List.getElem?_range hi]

/-- After initial creation the framebuffer invariant holds. -/
theorem invariant_after_new (caps : SurfaceCapabilities)
    (surface_formats : List (Format × ColorSpace)) (ws : Extent) (s : Renderer)
    (h : Renderer.new caps surface_formats ws = some s) :
    FramebufferInvariant s := by
  unfold Renderer.new at h
  rcases hc : create_swapchain caps surface_formats 0 with _ | res
  · rw [hc] at h
    exact Option.noConfusion h
  · rw [hc] at h
    injection h with hs
    subst hs
    unfold create_swapchain at hc
    rcases Option.map_eq_some'.mp hc with ⟨info, hinfo, hdrv⟩
    subst hdrv
    constructor
    · simp [create_framebuffers]
    · intro i hi
      simp only [create_framebuffers, List.length_map, driver_images_length] at hi
      refine ⟨?_, ?_, ?_⟩ <;>
        simp [create_framebuffers_getElem?, driver_images_getElem? _ _ i hi,
          swapchainDriverCreate, List.getElem?_range hi]

/-- Well-formedness of the id supply: every GPU object the renderer currently
holds has an id below the allocation counter, so freshly allocated ids are
distinct from all of them. -/
def RendererIdsBounded (s : Renderer) : Prop :=
  s.swapchain.id < s.nextId ∧ s.pipeline.id < s.nextId ∧
  ∀ img ∈ s.swapchain_images, img.id < s.nextId

instance (s : Renderer) : Decidable (RendererIdsBounded s) := by
  unfold RendererIdsBounded
  infer_instance

/-! Claim theorems. -/

/-- Claim C1 (counterexample): on a frame whose acquire succeeds but reports
the image suboptimal, the source does NOT record, submit or present the
frame; it rebuilds immediately during that same tick.  This refutes the
claim that the suboptimal frame is still drawn and a rebuild merely
scheduled for the next tick. -/
theorem c1_counterexample :
    (Renderer.render_frame envSubopt sampleRenderer).toOption.map
      (fun p => (p.2.recorded, p.2.submitted, p.2.presented, p.2.rebuiltNow)) =
      some (false, false, false, true) := by decide

/-- Claim C1 (amended): for every frame whose acquire succeeds but reports
the image suboptimal (window dimensions nonzero), the frame scheduler skips
the frame entirely — no record, submit or present — performs the full
rebuild immediately during this same tick, restores the consumed completion
token, and returns success. -/
theorem c1_suboptimal_frame_skipped_and_rebuilt (env : FrameEnv) (s : Renderer)
    (idx : Nat) (hacq : env.acquire = AcquireOutcome.success idx true)
    (h1 : env.windowSize.1 ≠ 0) (h2 : env.windowSize.2 ≠ 0) :
    Renderer.render_frame env s =
      Except.ok ({ (Renderer.recreate_swapchain env s).1 with
          previous_frame_end := s.previous_frame_end },
        ⟨s.previous_frame_end, none, false, false, false, true⟩) := by
  have hr : (Renderer.recreate_swapchain env s).2.rebuilt = true :=
    (recreate_rebuilt_iff env s).mpr (by tauto)
  simp only [Renderer.render_frame, Renderer.update_uniform_buffer, hacq, hr,
    if_pos]

/-- Claim C1 witness: the amended statement at a concrete suboptimal frame. -/
theorem c1_witness :
    Renderer.render_frame envSubopt sampleRenderer =
      Except.ok ({ (Renderer.recreate_swapchain envSubopt sampleRenderer).1 with
          previous_frame_end := sampleRenderer.previous_frame_end },
        ⟨sampleRenderer.previous_frame_end, none, false, false, false, true⟩) :=
  c1_suboptimal_frame_skipped_and_rebuilt envSubopt sampleRenderer 0 rfl
    (by decide) (by decide)

/-- Claim C4 (counterexample): when the surface reports no current extent,
the recreated chain takes the OLD swapchain's extent (640x480), not the
caller-supplied window size (800x600) as the claim states — indeed the
source's `recreate_swapchain` has no caller-size parameter at all. -/
theorem c4_counterexample :
    (recreate_swapchain ⟨3, some 3, none⟩
        ⟨0, ⟨3, Format.B8G8R8A8_SRGB, ColorSpace.SrgbNonLinear, (640, 480),
          usageColorAttachment, alphaOpaque⟩⟩ 10).1.swapchain.info.image_extent =
      (640, 480) ∧
    recreate_extent_as_specified ⟨3, some 3, none⟩ (800, 600) = (800, 600) ∧
    ((640, 480) : Extent) ≠ (800, 600) := by decide

/-- Claim C4 (amended): every swapchain recreation reuses all creation
parameters of the old chain except the extent; the extent is resolved from
the surface's reported current extent, falling back to the OLD SWAPCHAIN's
extent (not a caller-supplied window size) when the surface does not report
one. -/
theorem c4_recreate_reuses_params_old_extent_fallback
    (caps : SurfaceCapabilities) (old_swapchain : Swapchain) (startId : Nat) :
    (recreate_swapchain caps old_swapchain startId).1.swapchain.info.min_image_count =
      old_swapchain.info.min_image_count ∧
    (recreate_swapchain caps old_swapchain startId).1.swapchain.info.image_format =
      old_swapchain.info.image_format ∧
    (recreate_swapchain caps old_swapchain startId).1.swapchain.info.image_color_space =
      old_swapchain.info.image_color_space ∧
    (recreate_swapchain caps old_swapchain startId).1.swapchain.info.image_usage =
      old_swapchain.info.image_usage ∧
    (recreate_swapchain caps old_swapchain startId).1.swapchain.info.composite_alpha =
      old_swapchain.info.composite_alpha ∧
    (recreate_swapchain caps old_swapchain startId).1.swapchain.info.image_extent =
      caps.current_extent.getD old_swapchain.info.image_extent :=
  ⟨rfl, rfl, rfl, rfl, rfl, rfl⟩

/-- Claim C5 (counterexample): against a surface reporting
`min_image_count = 1, max_image_count = 1`, the source requests 2 images,
which exceeds the device-reported maximum of 1 — the requested count is
never clamped against the maximum. -/
theorem c5_counterexample :
    (create_swapchain_info ⟨1, some 1, some (100, 100)⟩ sampleFormats).map
      (fun info => info.min_image_count) = some 2 ∧
    (⟨1, some 1, some (100, 100)⟩ : SurfaceCapabilities).max_image_count =
      some 1 ∧
    ¬(2 ≤ 1) := by decide

/-- Claim C5 (amended): the requested image count is
`max(min_image_count, 2)` — clamped to at least 2 but never against the
device-reported maximum (which the source ignores entirely); in particular,
against a surface reporting `min_image_count = 3`, exactly 3 images are
requested. -/
theorem c5_image_count_request :
    (∀ (caps : SurfaceCapabilities) (fmts : List (Format × ColorSpace))
        (info : SwapchainCreateInfo),
      create_swapchain_info caps fmts = some info →
      info.min_image_count = max caps.min_image_count 2 ∧
        2 ≤ info.min_image_count) ∧
    (∀ (caps : SurfaceCapabilities) (fmts : List (Format × ColorSpace))
        (info : SwapchainCreateInfo),
      create_swapchain_info caps fmts = some info →
      caps.min_image_count = 3 → info.min_image_count = 3) := by
  constructor
  · intro caps fmts info h
    rcases Option.map_eq_some'.mp h with ⟨fc, hfc, rfl⟩
    exact ⟨rfl, Nat.le_max_right _ 2⟩
  · intro caps fmts info h h3
    rcases Option.map_eq_some'.mp h with ⟨fc, hfc, rfl⟩
    simp [h3]

/-- Claim C5 witness: against the sample surface with `min_image_count = 3`
the request is exactly 3, which also equals `max(3, 2)`. -/
theorem c5_witness :
    ((⟨3, Format.B8G8R8A8_SRGB, ColorSpace.SrgbNonLinear, (800, 600),
        usageColorAttachment, alphaOpaque⟩ : SwapchainCreateInfo).min_image_count =
      max (⟨3, some 3, some (800, 600)⟩ : SurfaceCapabilities).min_image_count 2 ∧
      2 ≤ (⟨3, Format.B8G8R8A8_SRGB, ColorSpace.SrgbNonLinear, (800, 600),
        usageColorAttachment, alphaOpaque⟩ : SwapchainCreateInfo).min_image_count) ∧
    (⟨3, Format.B8G8R8A8_SRGB, ColorSpace.SrgbNonLinear, (800, 600),
      usageColorAttachment, alphaOpaque⟩ : SwapchainCreateInfo).min_image_count = 3 :=
  ⟨c5_image_count_request.1 ⟨3, some 3, some (800, 600)⟩ sampleFormats
      ⟨3, Format.B8G8R8A8_SRGB, ColorSpace.SrgbNonLinear, (800, 600),
        usageColorAttachment, alphaOpaque⟩ (by decide),
    c5_image_count_request.2 ⟨3, some 3, some (800, 600)⟩ sampleFormats
      ⟨3, Format.B8G8R8A8_SRGB, ColorSpace.SrgbNonLinear, (800, 600),
        usageColorAttachment, alphaOpaque⟩ (by decide) rfl⟩

/-- Claim C2: after a fully successful frame at elapsed time T = 1 with an
800x600 window, the uniform buffer the pipeline would read still holds the
identity matrices it was created with, and that differs from the
per-frame UBO the source computes (whose model transform is the rotation
with axis-angle vector `(0, 0.3 * T, 0)`): `update_uniform_buffer` builds
the new data and a fresh identity buffer but drops both at the TODO in
src/engine/renderer.rs lines 251-252, so the per-frame write never reaches
the uniform buffer. -/
theorem c2_uniform_write_never_reaches_buffer :
    (Renderer.render_frame envOk sampleRenderer).toOption.map
      (fun p => p.1.uniform_buffer) = some create_uniform_buffer_contents ∧
    Renderer.computedFrameUBO envOk.elapsed envOk.windowSize ≠
      create_uniform_buffer_contents := by decide

/-- Claim C3 (counterexample): with a successful acquire and execution but a
flush/present failure other than out-of-date, `render_frame` returns Ok —
not an error — and the run loop keeps going (two frames run, no exit).
This refutes the claim that any non-out-of-date present failure is fatal. -/
theorem c3_counterexample :
    (Renderer.render_frame envFlushErr sampleRenderer).isOk = true ∧
    runLoop [envFlushErr, envOk] sampleRenderer = (2, false) := by decide

/-- Claim C3 (amended): a flush/present failure other than out-of-date is
logged and swallowed: `render_frame` replaces the completion token with an
immediately-satisfied one and returns success, so the run loop continues;
more generally the loop never exits with an error while acquire avoids the
fatal case and command execution succeeds, whatever the flush outcomes.
(Only acquire failures and `then_execute` failures propagate as errors.) -/
theorem c3_flush_error_logged_not_fatal :
    (∀ (env : FrameEnv) (s : Renderer) (idx : Nat),
      env.acquire = AcquireOutcome.success idx false → env.execOk = true →
      env.flush = FlushOutcome.otherError →
      Renderer.render_frame env s =
        Except.ok ({ s with
            previous_frame_end := Token.now
            frameCounter := s.frameCounter + 1 },
          ⟨s.previous_frame_end, some (Token.submit s.frameCounter),
            true, true, false, false⟩)) ∧
    (∀ (envs : List FrameEnv) (s : Renderer),
      (∀ e ∈ envs, e.acquire ≠ AcquireOutcome.otherError ∧ e.execOk = true) →
      (runLoop envs s).2 = false) := by
  constructor
  · intro env s idx hacq hex hfl
    simp [Renderer.render_frame, Renderer.update_uniform_buffer, hacq,
      hex, hfl]
  · exact runLoop_no_error_exit

/-- Claim C3 witness: the amended statement at a concrete flush failure,
plus the loop continuing past it. -/
theorem c3_witness :
    Renderer.render_frame envFlushErr sampleRenderer =
      Except.ok ({ sampleRenderer with
          previous_frame_end := Token.now
          frameCounter := sampleRenderer.frameCounter + 1 },
        ⟨sampleRenderer.previous_frame_end,
          some (Token.submit sampleRenderer.frameCounter),
          true, true, false, false⟩) ∧
    (runLoop [envFlushErr, envOk] sampleRenderer).2 = false :=
  ⟨c3_flush_error_logged_not_fatal.1 envFlushErr sampleRenderer 0 rfl rfl rfl,
   c3_flush_error_logged_not_fatal.2 [envFlushErr, envOk] sampleRenderer
     (by decide)⟩

/-- Claim C6 (counterexample): a rebuild that actually recreates the chain
still carries the render pass of the previous generation over unchanged —
refuting the claim that the entire frame graphics state, render pass
included, is replaced together. -/
theorem c6_counterexample :
    (Renderer.recreate_swapchain envOk sampleRenderer).2.rebuilt = true ∧
    (Renderer.recreate_swapchain envOk sampleRenderer).1.render_pass =
      sampleRenderer.render_pass := by decide

/-- Claim C6 (amended): whenever the swapchain is rebuilt (window dimensions
nonzero, object ids well-formed), the swapchain, its images, the
framebuffers and the pipeline are all replaced by fresh objects — new
identities, with the framebuffers rebuilt from the new images — but the
render pass is NOT rebuilt: the render pass of the previous generation is
carried over unchanged. -/
theorem c6_rebuild_replaces_chain_but_reuses_render_pass (env : FrameEnv)
    (s : Renderer) (hw : ¬(env.windowSize.1 = 0 ∨ env.windowSize.2 = 0))
    (hb : RendererIdsBounded s) :
    (Renderer.recreate_swapchain env s).1.render_pass = s.render_pass ∧
    (Renderer.recreate_swapchain env s).1.swapchain.id ≠ s.swapchain.id ∧
    (Renderer.recreate_swapchain env s).1.pipeline.id ≠ s.pipeline.id ∧
    (∀ img ∈ (Renderer.recreate_swapchain env s).1.swapchain_images,
      ∀ img' ∈ s.swapchain_images, img.id ≠ img'.id) ∧
    (Renderer.recreate_swapchain env s).1.framebuffers =
      create_framebuffers (Renderer.recreate_swapchain env s).1.swapchain_images
        s.render_pass := by
  obtain ⟨hb1, hb2, hb3⟩ := hb
  simp only [Renderer.recreate_swapchain, if_neg hw, swapchainModuleRecreate,
    recreate_swapchain]
  refine ⟨trivial, ?_, ?_, ?_, trivial⟩
  · simp only [swapchainDriverCreate]
    omega
  · simp only [swapchainDriverCreate, create_graphics_pipeline]
    omega
  · intro img hmem img' hmem'
    have h1 := driver_images_id_lb _ s.nextId img hmem
    have h2 := hb3 img' hmem'
    omega

/-- Claim C6 witness: the amended statement at a concrete rebuild. -/
theorem c6_witness :
    (Renderer.recreate_swapchain envOk sampleRenderer).1.render_pass =
      sampleRenderer.render_pass ∧
    (Renderer.recreate_swapchain envOk sampleRenderer).1.swapchain.id ≠
      sampleRenderer.swapchain.id ∧
    (Renderer.recreate_swapchain envOk sampleRenderer).1.pipeline.id ≠
      sampleRenderer.pipeline.id ∧
    (∀ img ∈ (Renderer.recreate_swapchain envOk sampleRenderer).1.swapchain_images,
      ∀ img' ∈ sampleRenderer.swapchain_images, img.id ≠ img'.id) ∧
    (Renderer.recreate_swapchain envOk sampleRenderer).1.framebuffers =
      create_framebuffers
        (Renderer.recreate_swapchain envOk sampleRenderer).1.swapchain_images
        sampleRenderer.render_pass :=
  c6_rebuild_replaces_chain_but_reuses_render_pass envOk sampleRenderer
    (by decide) (by decide)

/-- Claim C7: for every frame whose acquire reports the surface out-of-date
(window dimensions nonzero), the scheduler performs the full rebuild during
this tick, skips drawing entirely — no record, submit or present — restores
the consumed completion token, and returns success: the out-of-date signal
is fully handled inside `render_frame` and never escapes as an error. -/
theorem c7_acquire_out_of_date_fully_handled (env : FrameEnv) (s : Renderer)
    (hacq : env.acquire = AcquireOutcome.outOfDate)
    (h1 : env.windowSize.1 ≠ 0) (h2 : env.windowSize.2 ≠ 0) :
    Renderer.render_frame env s =
      Except.ok ({ (Renderer.recreate_swapchain env s).1 with
          previous_frame_end := s.previous_frame_end },
        ⟨s.previous_frame_end, none, false, false, false, true⟩) := by
  have hr : (Renderer.recreate_swapchain env s).2.rebuilt = true :=
    (recreate_rebuilt_iff env s).mpr (by tauto)
  simp only [Renderer.render_frame, Renderer.update_uniform_buffer, hacq, hr]

/-- Claim C7 witness: the statement at a concrete out-of-date acquire. -/
theorem c7_witness :
    Renderer.render_frame envAcquireOOD sampleRenderer =
      Except.ok ({ (Renderer.recreate_swapchain envAcquireOOD sampleRenderer).1 with
          previous_frame_end := sampleRenderer.previous_frame_end },
        ⟨sampleRenderer.previous_frame_end, none, false, false, false, true⟩) :=
  c7_acquire_out_of_date_fully_handled envAcquireOOD sampleRenderer rfl
    (by decide) (by decide)

/-- On a fully successful frame the stored token is exactly the fence of
this frame's submission, which is also the trace's produced token. -/
theorem render_frame_success_token (env : FrameEnv) (s : Renderer)
    (s' : Renderer) (tr : FrameTrace) (idx : Nat)
    (hacq : env.acquire = AcquireOutcome.success idx false)
    (hex : env.execOk = true) (hfl : env.flush = FlushOutcome.success)
    (h : Renderer.render_frame env s = Except.ok (s', tr)) :
    tr.produced = some (Token.submit s.frameCounter) ∧
    s'.previous_frame_end = Token.submit s.frameCounter := by
  simp only [Renderer.render_frame, Renderer.update_uniform_buffer, hacq,
    hex, hfl] at h
  simp only [Bool.false_eq_true, if_false, if_true] at h
  injection h with hp
  injection hp with hA hB
  subst hA
  subst hB
  exact ⟨rfl, rfl⟩

/-- On a frame whose present reports out-of-date, the stale token is dropped
and replaced with an immediately-satisfied `sync::now` token. -/
theorem render_frame_present_ood_token (env : FrameEnv) (s : Renderer)
    (s' : Renderer) (tr : FrameTrace) (idx : Nat)
    (hacq : env.acquire = AcquireOutcome.success idx false)
    (hex : env.execOk = true) (hfl : env.flush = FlushOutcome.outOfDate)
    (h : Renderer.render_frame env s = Except.ok (s', tr)) :
    s'.previous_frame_end = Token.now := by
  simp only [Renderer.render_frame, Renderer.update_uniform_buffer, hacq,
    hex, hfl] at h
  simp only [Bool.false_eq_true, if_false, if_true] at h
  injection h with hp
  injection hp with hA hB
  subst hA
  rfl

/-- Claim C8: completion-token chaining.  Part 1: every Ok frame consumes
exactly the token stored at its start.  Part 2: a fully successful frame
stores (and reports as produced) exactly its own submission's fence.
Part 3 (composition): the token consumed by the next Ok frame after a fully
successful frame N is exactly the token frame N's submit produced.
Part 4: a present that reports out-of-date drops the stale token and stores
an immediately-satisfied one. -/
theorem c8_completion_token_chaining :
    (∀ (env : FrameEnv) (s s' : Renderer) (tr : FrameTrace),
      Renderer.render_frame env s = Except.ok (s', tr) →
      tr.consumed = s.previous_frame_end) ∧
    (∀ (env : FrameEnv) (s s' : Renderer) (tr : FrameTrace) (idx : Nat),
      env.acquire = AcquireOutcome.success idx false → env.execOk = true →
      env.flush = FlushOutcome.success →
      Renderer.render_frame env s = Except.ok (s', tr) →
      tr.produced = some (Token.submit s.frameCounter) ∧
        s'.previous_frame_end = Token.submit s.frameCounter) ∧
    (∀ (env₁ env₂ : FrameEnv) (s s' s'' : Renderer) (tr₁ tr₂ : FrameTrace)
        (idx : Nat),
      env₁.acquire = AcquireOutcome.success idx false → env₁.execOk = true →
      env₁.flush = FlushOutcome.success →
      Renderer.render_frame env₁ s = Except.ok (s', tr₁) →
      Renderer.render_frame env₂ s' = Except.ok (s'', tr₂) →
      tr₂.consumed = Token.submit s.frameCounter) ∧
    (∀ (env : FrameEnv) (s s' : Renderer) (tr : FrameTrace) (idx : Nat),
      env.acquire = AcquireOutcome.success idx false → env.execOk = true →
      env.flush = FlushOutcome.outOfDate →
      Renderer.render_frame env s = Except.ok (s', tr) →
      s'.previous_frame_end = Token.now) := by
  refine ⟨render_frame_consumed, render_frame_success_token, ?_,
    render_frame_present_ood_token⟩
  intro env₁ env₂ s s' s'' tr₁ tr₂ idx hacq hex hfl h₁ h₂
  have hstore :=
    (render_frame_success_token env₁ s s' tr₁ idx hacq hex hfl h₁).2
  have hcons := render_frame_consumed env₂ s' s'' tr₂ h₂
  rw [hcons, hstore]

/-- Claim C8 witness: two concrete successful frames chained from the sample
state — frame 1 produces `submit 0`, and frame 2's trace records consuming
exactly `submit 0`. -/
theorem c8_witness :
    (⟨Token.submit 0, some (Token.submit 1), true, true, true, false⟩ :
      FrameTrace).consumed = Token.submit sampleRenderer.frameCounter :=
  c8_completion_token_chaining.2.2.1 envOk envOk sampleRenderer
    { sampleRenderer with previous_frame_end := Token.submit 0, frameCounter := 1 }
    { sampleRenderer with previous_frame_end := Token.submit 1, frameCounter := 2 }
    ⟨Token.now, some (Token.submit 0), true, true, true, false⟩
    ⟨Token.submit 0, some (Token.submit 1), true, true, true, false⟩
    0 rfl rfl rfl (by decide) (by decide)

/-- Claim C9: after initial creation and after every non-degenerate rebuild,
the number of framebuffers equals the number of swapchain images, framebuffer
`i` wraps the default view of image `i` on the current render pass, and every
framebuffer's bound extent equals the swapchain's current extent. -/
theorem c9_framebuffers_match_swapchain :
    (∀ (caps : SurfaceCapabilities) (fmts : List (Format × ColorSpace))
        (ws : Extent) (s : Renderer),
      Renderer.new caps fmts ws = some s → FramebufferInvariant s) ∧
    (∀ (env : FrameEnv) (s : Renderer),
      ¬(env.windowSize.1 = 0 ∨ env.windowSize.2 = 0) →
      FramebufferInvariant (Renderer.recreate_swapchain env s).1) :=
  ⟨invariant_after_new, invariant_after_rebuild⟩

/-- Claim C9 witness: the invariant at the freshly created sample state and
after a concrete rebuild of it. -/
theorem c9_witness :
    FramebufferInvariant sampleRenderer ∧
    FramebufferInvariant (Renderer.recreate_swapchain envOk sampleRenderer).1 :=
  ⟨c9_framebuffers_match_swapchain.1 sampleCaps sampleFormats (800, 600)
      sampleRenderer (by decide),
    c9_framebuffers_match_swapchain.2 envOk sampleRenderer (by decide)⟩

/-- Claim C10: if either window dimension is zero, `recreate_swapchain`
returns success immediately with the renderer state completely unchanged —
no device-idle wait and no rebuild happen. -/
theorem c10_zero_dimension_rebuild_is_noop (env : FrameEnv) (s : Renderer)
    (h : env.windowSize.1 = 0 ∨ env.windowSize.2 = 0) :
    Renderer.recreate_swapchain env s = (s, ⟨false, false⟩) := by
  unfold Renderer.recreate_swapchain
  rw [if_pos h]

/-- Claim C10 witness: the statement at a concrete zero-width window. -/
theorem c10_witness :
    Renderer.recreate_swapchain envZeroWindow sampleRenderer =
      (sampleRenderer, ⟨false, false⟩) :=
  c10_zero_dimension_rebuild_is_noop envZeroWindow sampleRenderer (Or.inl rfl)
